import Mathlib

/-!
Verification of the code-analysis engine in `src/models/server.py`
(repository SathishAdithiyaaSV/Repo-analyzer).

The Python module is a rule-based classifier over a code diff.  We give a
shallow embedding of its classification engine and its two HTTP handlers.

Regular expressions: every pattern appearing in the source's rule tables
uses only literal characters, the character classes `\w` `\s` `.` `[^}]`
`[\w.]` `["\']`, the quantifiers `*` `+` `?` applied to a single character
atom, one alternation of literal words, the anchor `$`, and the word
boundary `\b`.  The matcher below implements exactly these constructs with
Python's backtracking preference order (greedy quantifiers, leftmost
match, alternatives tried left to right), `re.MULTILINE` as a flag on the
`$` anchor, and `re.IGNORECASE` modelled by lowercasing both the subject
text and the stored pattern literals (all matching in the source is over
ASCII-cased literals, where the two are equivalent).
-/

/-- Character classes occurring in the source's regex patterns. -/
inductive CClass where
  | word            -- `\w`
  | space           -- `\s`
  | anychar         -- `.` (anything but a newline; DOTALL is never set)
  | notBrace        -- `[^}]`
  | wordDot         -- `[\w.]`
  | quote           -- `["\']`
deriving DecidableEq

/-- ASCII `\w`: letters, digits, underscore. -/
def isWordChar (c : Char) : Bool :=
  ('a' ≤ c && c ≤ 'z') || ('A' ≤ c && c ≤ 'Z') || ('0' ≤ c && c ≤ '9') || c = '_'

/-- ASCII `\s`: Python's whitespace set. -/
def isPySpace (c : Char) : Bool :=
  c = ' ' || c = '\t' || c = '\n' || c = '\r' || c = '\x0b' || c = '\x0c'

def CClass.matches : CClass → Char → Bool
  | .word, c => isWordChar c
  | .space, c => isPySpace c
  | .anychar, c => c ≠ '\n'
  | .notBrace, c => c ≠ '}'
  | .wordDot, c => isWordChar c || c = '.'
  | .quote, c => c = Char.ofNat 34 || c = Char.ofNat 39

/-- One item of a regex pattern (a pattern is a sequence of items). -/
inductive RItem where
  | ch (c : Char)              -- a literal character (stored lowercased)
  | cls (k : CClass)           -- a single character-class atom
  | star (k : CClass)          -- class atom under `*` (greedy)
  | plus (k : CClass)          -- class atom under `+` (greedy)
  | opt (c : Char)             -- literal character under `?` (greedy)
  | alt (alts : List String)   -- alternation of literal words, e.g. `(cpp|cc|cxx)`
  | eol                        -- the `$` anchor
  | wb                         -- the `\b` word boundary
deriving DecidableEq

/-- A compiled pattern. -/
abbrev Pat := List RItem

/-- List `[m, m-1, ..., 0]`: candidate repetition counts for a greedy quantifier,
longest first (Python's backtracking preference). -/
def countdown : Nat → List Nat
  | 0 => [0]
  | n + 1 => (n + 1) :: countdown n

def concatMap (f : α → List β) : List α → List β
  | [] => []
  | a :: l => f a ++ concatMap f l

/-- All suffixes of `s` remaining after a match of `items` starting at the
head of `s`, in Python's backtracking preference order (so the head of the
result is the extent Python's engine picks).  `prev` is the character just
before the current position (`none` at the start of the subject), needed
for `\b`; `ml` is the `re.MULTILINE` flag, consulted by `$`.

The first argument is structural fuel: every recursive call is on the tail
of `items`, so any fuel `≥ items.length + 1` gives the fixpoint (the
wrapper `matchEnds` below passes exactly that); fuel keeps the definition
structurally recursive, hence kernel-reducible. -/
def matchEndsF (ml : Bool) : Nat → List RItem → List Char → Option Char →
    List (List Char)
  | 0, _, _, _ => []
  | fuel + 1, items, s, prev =>
    match items with
    | [] => [s]
    | RItem.ch c :: rest =>
      match s with
      | [] => []
      | a :: s' => if a = c then matchEndsF ml fuel rest s' (some a) else []
    | RItem.cls k :: rest =>
      match s with
      | [] => []
      | a :: s' => if k.matches a then matchEndsF ml fuel rest s' (some a) else []
    | RItem.star k :: rest =>
      concatMap
        (fun j => matchEndsF ml fuel rest (s.drop j)
          (if j = 0 then prev else some (s.getD (j - 1) ' ')))
        (countdown (s.takeWhile k.matches).length)
    | RItem.plus k :: rest =>
      match s with
      | [] => []
      | a :: s' =>
        if k.matches a then
          concatMap
            (fun j => matchEndsF ml fuel rest (s'.drop j)
              (if j = 0 then some a else some (s'.getD (j - 1) ' ')))
            (countdown (s'.takeWhile k.matches).length)
        else []
    | RItem.opt c :: rest =>
      (match s with
       | a :: s' => if a = c then matchEndsF ml fuel rest s' (some a) else []
       | [] => []) ++ matchEndsF ml fuel rest s prev
    | RItem.alt alts :: rest =>
      concatMap
        (fun w =>
          if w.toList.isPrefixOf s then
            matchEndsF ml fuel rest (s.drop w.length)
              (if w.length = 0 then prev else some (s.getD (w.length - 1) ' '))
          else [])
        alts
    | RItem.eol :: rest =>
      if s.isEmpty || (ml && s.head? == some '\n') || (!ml && s == ['\n']) then
        matchEndsF ml fuel rest s prev
      else []
    | RItem.wb :: rest =>
      let pw := match prev with | some c => isWordChar c | none => false
      let nw := match s.head? with | some c => isWordChar c | none => false
      if pw != nw then matchEndsF ml fuel rest s prev else []

def matchEnds (ml : Bool) (items : List RItem) (s : List Char) (prev : Option Char) :
    List (List Char) :=
  matchEndsF ml (items.length + 1) items s prev

/-- Core of `re.search`: does the pattern match starting at some position?
Fuel-structural; every step discards one subject character, so fuel
`s.length + 1` (passed by the wrapper `searchIn`) reaches the fixpoint. -/
def searchInF (ml : Bool) (p : Pat) : Nat → List Char → Option Char → Bool
  | 0, _, _ => false
  | fuel + 1, s, prev =>
    if !(matchEnds ml p s prev).isEmpty then true
    else
      match s with
      | [] => false
      | a :: s' => searchInF ml p fuel s' (some a)

def searchIn (ml : Bool) (p : Pat) (s : List Char) (prev : Option Char) : Bool :=
  searchInF ml p (s.length + 1) s prev

/-- Core of `len(re.findall ...)`: the number of non-overlapping matches,
scanning left to right, resuming at the end of each match (advancing one
position past an empty match, as Python does).  Fuel-structural; every
step strictly shortens the subject, so fuel `s.length + 1` (passed by the
wrapper `countIn`) reaches the fixpoint. -/
def countInF (ml : Bool) (p : Pat) : Nat → List Char → Option Char → Nat
  | 0, _, _ => 0
  | fuel + 1, s, prev =>
    match matchEnds ml p s prev with
    | r :: _ =>
      let consumed := s.length - r.length
      if consumed = 0 then
        match s with
        | [] => 1
        | a :: s' => 1 + countInF ml p fuel s' (some a)
      else
        1 + countInF ml p fuel (s.drop consumed) (some (s.getD (consumed - 1) ' '))
    | [] =>
      match s with
      | [] => 0
      | a :: s' => countInF ml p fuel s' (some a)

def countIn (ml : Bool) (p : Pat) (s : List Char) (prev : Option Char) : Nat :=
  countInF ml p (s.length + 1) s prev

/-- Python `str.lower()` over ASCII. -/
def pyLower (s : String) : String := String.mk (s.toList.map Char.toLower)

/-- Python `re.search(pattern, text, re.IGNORECASE [| re.MULTILINE])`:
IGNORECASE is modelled by lowercasing the subject (pattern literals are
stored lowercased). -/
def reSearch (ml : Bool) (p : Pat) (text : String) : Bool :=
  searchIn ml p (pyLower text).toList none

/-- Python `len(re.findall(pattern, text, re.IGNORECASE [| re.MULTILINE]))`. -/
def reCount (ml : Bool) (p : Pat) (text : String) : Nat :=
  countIn ml p (pyLower text).toList none

-- Pattern-building helpers: `lit` a literal run, `wp` = `\w+`, `sp` = `\s+`,
-- `ss` = `\s*`, `dotstar` = `.*`, `lineEnd` = `$`.
def lit (t : String) : Pat := t.toList.map RItem.ch
def wp : Pat := [RItem.plus CClass.word]
def sp : Pat := [RItem.plus CClass.space]
def ss : Pat := [RItem.star CClass.space]
def dotstar : Pat := [RItem.star CClass.anychar]
def lineEnd : Pat := [RItem.eol]

/-!
## Rule tables

Transcribed from `CodeAnalyzer.__init__` (and, for the functionality
table, from the local dictionary in `analyze_functionality`).  Order of
entries is the Python dict insertion order, which Python preserves and
which the tie-breaking of `max(d, key=d.get)` depends on.  Pattern
literals are stored lowercased (see `reSearch` on IGNORECASE).
-/

def language_patterns : List (String × List Pat) := [
  ("python", [lit ".py" ++ lineEnd, lit "import" ++ sp ++ wp, lit "def" ++ sp ++ wp,
    lit "class" ++ sp ++ wp,
    lit "if" ++ sp ++ lit "__name__" ++ ss ++ lit "==" ++ ss ++ [RItem.cls CClass.quote] ++
      lit "__main__" ++ [RItem.cls CClass.quote]]),
  ("java", [lit ".java" ++ lineEnd, lit "public" ++ sp ++ lit "class",
    lit "import" ++ sp ++ [RItem.plus CClass.wordDot] ++ lit ";",
    lit "public" ++ sp ++ lit "static" ++ sp ++ lit "void" ++ sp ++ lit "main",
    lit "@" ++ wp]),
  ("javascript", [lit ".js" ++ lineEnd, lit "function" ++ sp ++ wp, lit "const" ++ sp ++ wp,
    lit "let" ++ sp ++ wp, lit "var" ++ sp ++ wp, lit "=>"]),
  ("typescript", [lit ".ts" ++ lineEnd, lit "interface" ++ sp ++ wp, lit "type" ++ sp ++ wp,
    lit ":" ++ ss ++ wp, lit "export" ++ sp]),
  ("c++", [lit "." ++ [RItem.alt ["cpp", "cc", "cxx"]] ++ lineEnd,
    lit "#include" ++ ss ++ lit "<", lit "using" ++ sp ++ lit "namespace",
    lit "std::", lit "int" ++ sp ++ lit "main"]),
  ("c", [lit ".c" ++ lineEnd, lit "#include" ++ ss ++ lit "<",
    lit "int" ++ sp ++ lit "main", lit "printf" ++ ss ++ lit "(",
    lit "malloc" ++ ss ++ lit "("]),
  ("html", [lit ".htm" ++ [RItem.opt 'l'] ++ lineEnd, lit "<html>", lit "<div",
    lit "<span", lit "<!doctype"]),
  ("css", [lit ".css" ++ lineEnd, lit "\x7b" ++ [RItem.star CClass.notBrace] ++ lit "\x7d",
    lit "@media", lit "#" ++ wp, lit "." ++ wp]),
  ("sql", [lit ".sql" ++ lineEnd, lit "select" ++ sp, lit "insert" ++ sp,
    lit "update" ++ sp, lit "delete" ++ sp, lit "create" ++ sp ++ lit "table"]),
  ("shell", [lit ".sh" ++ lineEnd, lit "#!/bin/bash", lit "#!/bin/sh",
    lit "echo" ++ sp, lit "grep" ++ sp]),
  ("go", [lit ".go" ++ lineEnd, lit "package" ++ sp ++ wp, lit "import" ++ sp ++ lit "(",
    lit "func" ++ sp ++ wp, lit "go" ++ sp ++ wp]),
  ("rust", [lit ".rs" ++ lineEnd, lit "fn" ++ sp ++ wp, lit "let" ++ sp ++ wp,
    lit "struct" ++ sp ++ wp, lit "impl" ++ sp]),
  ("php", [lit ".php" ++ lineEnd, lit "<?php", lit "$" ++ wp,
    lit "function" ++ sp ++ wp, lit "class" ++ sp ++ wp]),
  ("ruby", [lit ".rb" ++ lineEnd, lit "def" ++ sp ++ wp, lit "class" ++ sp ++ wp,
    lit "require" ++ sp, lit "puts" ++ sp]),
  ("swift", [lit ".swift" ++ lineEnd, lit "func" ++ sp ++ wp, lit "var" ++ sp ++ wp,
    lit "let" ++ sp ++ wp, lit "class" ++ sp ++ wp]),
  ("kotlin", [lit ".kt" ++ lineEnd, lit "fun" ++ sp ++ wp, lit "val" ++ sp ++ wp,
    lit "var" ++ sp ++ wp, lit "class" ++ sp ++ wp])]

def code_patterns : List (String × List Pat) := [
  ("api_endpoint", [lit "@app.route", lit "@requestmapping",
    lit "app." ++ [RItem.alt ["get", "post", "put", "delete"]],
    lit "router." ++ [RItem.alt ["get", "post", "put", "delete"]]]),
  ("database_query", [lit "select" ++ sp ++ dotstar ++ lit "from",
    lit "insert" ++ sp ++ lit "into", lit "update" ++ sp ++ dotstar ++ lit "set",
    lit "delete" ++ sp ++ lit "from", lit ".find(", lit ".save("]),
  ("test_code", [lit "def" ++ sp ++ lit "test_", lit "@test",
    lit "it(" ++ dotstar ++ lit "should", lit "describe(", lit "assert", lit "expect("]),
  ("configuration", [lit ".properties" ++ lineEnd, lit ".yaml" ++ lineEnd,
    lit ".yml" ++ lineEnd, lit ".json" ++ lineEnd, lit ".xml" ++ lineEnd, lit "config"]),
  ("authentication", [lit "login", lit "password", lit "token", lit "auth",
    lit "jwt", lit "oauth"]),
  ("error_handling", [lit "try" ++ ss ++ lit ":", lit "catch" ++ ss ++ lit "(",
    lit "except" ++ ss ++ lit ":", lit "throw" ++ sp, lit "raise" ++ sp]),
  ("logging", [lit "console.log", lit "print(", lit "logger.", lit "log.",
    lit "system.out"]),
  ("async_code", [lit "async" ++ sp ++ lit "def", lit "await" ++ sp,
    lit "promise" ++ ss ++ lit "<", lit "completablefuture"]),
  ("ui_component", [lit "<div", lit "<span", lit "<button", lit "class" ++ ss ++ lit "=",
    lit "id" ++ ss ++ lit "=", lit "render" ++ ss ++ lit "("]),
  ("data_processing", [lit "map" ++ ss ++ lit "(", lit "filter" ++ ss ++ lit "(",
    lit "reduce" ++ ss ++ lit "(", lit "for" ++ sp ++ dotstar ++ lit "in" ++ sp,
    lit ".stream()"]),
  ("security", [lit "encrypt", lit "decrypt", lit "hash", lit "ssl", lit "https",
    lit "certificate"]),
  ("performance", [lit "cache", lit "optimize", lit "performance", lit "benchmark",
    lit "profile"]),
  ("refactoring", [lit "todo", lit "fixme", lit "deprecated", lit "@deprecated",
    lit "# todo"])]

def complexity_indicators : List (String × List Pat) := [
  ("high", [lit "for" ++ sp ++ dotstar ++ lit "for" ++ sp,
    lit "while" ++ sp ++ dotstar ++ lit "while" ++ sp,
    lit "if" ++ sp ++ dotstar ++ lit "if" ++ sp ++ dotstar ++ lit "if" ++ sp,
    lit "try" ++ sp ++ dotstar ++ lit "except" ++ sp ++ dotstar ++ lit "except" ++ sp,
    lit "switch" ++ sp ++ dotstar ++ lit "case" ++ sp ++ dotstar ++ lit "case" ++ sp ++
      dotstar ++ lit "case" ++ sp]),
  ("medium", [lit "for" ++ sp ++ dotstar ++ lit "in" ++ sp, lit "while" ++ sp,
    lit "if" ++ sp ++ dotstar ++ lit "else" ++ sp,
    lit "try" ++ sp ++ dotstar ++ lit "except" ++ sp,
    lit "switch" ++ sp ++ dotstar ++ lit "case" ++ sp,
    lit "class" ++ sp ++ dotstar ++ lit "extends" ++ sp]),
  ("low", [lit "def" ++ sp ++ wp, lit "function" ++ sp ++ wp, lit "var" ++ sp ++ wp,
    lit "let" ++ sp ++ wp, lit "const" ++ sp ++ wp])]

/-- The keyword table local to `analyze_functionality` (plain substrings,
not regexes; the body check wraps each keyword in `\b...\b`). -/
def functionality_keywords : List (String × List String) := [
  ("authentication", ["login", "password", "auth", "token", "session", "jwt"]),
  ("database", ["query", "select", "insert", "update", "delete", "database", "sql"]),
  ("api", ["endpoint", "route", "request", "response", "api", "rest"]),
  ("ui", ["component", "render", "view", "template", "html", "css"]),
  ("testing", ["test", "assert", "expect", "mock", "unittest"]),
  ("configuration", ["config", "settings", "properties", "environment"]),
  ("data_processing", ["process", "transform", "parse", "convert", "filter"]),
  ("utility", ["helper", "util", "common", "shared", "library"]),
  ("business_logic", ["calculate", "validate", "process", "handle", "manage"]),
  ("integration", ["connect", "integrate", "sync", "import", "export"])]

/-!
## `max(d, key=d.get)` over an insertion-ordered dict

Python's `max` keeps the first item and replaces it only on a strictly
greater key value, so ties go to the earliest-inserted entry.  We model
the dict as an ordered association list.
-/

/-- Python `max(d, key=d.get)` on an association list (`none` on the empty dict,
where Python would raise). -/
def pyMaxPair (l : List (String × Nat)) : Option (String × Nat) :=
  match l with
  | [] => none
  | p :: rest => some (rest.foldl (fun best r => if r.2 > best.2 then r else best) p)

/-- The maximum value in the dict (0 on the empty dict). -/
def maxVal (l : List (String × Nat)) : Nat := l.foldr (fun p m => max p.2 m) 0

/-!
## String helpers mirroring Python built-ins
-/

/-- Python `str.split('\n')` (on the character list; keeps empty parts). -/
def splitLines : List Char → List (List Char)
  | [] => [[]]
  | c :: rest =>
    if c = '\n' then [] :: splitLines rest
    else
      match splitLines rest with
      | l :: ls => (c :: l) :: ls
      | [] => [[c]]

/-- Python `str.strip()` on a character list (Python whitespace set). -/
def pyStripL (l : List Char) : List Char :=
  ((l.dropWhile isPySpace).reverse.dropWhile isPySpace).reverse

/-- Python `line.strip().startswith(('#', '//', '/*', '*'))`. -/
def startsCommentMarker (l : List Char) : Bool :=
  "#".toList.isPrefixOf l || "//".toList.isPrefixOf l ||
    "/*".toList.isPrefixOf l || "*".toList.isPrefixOf l

/-- Python `str.replace('_', ' ')` for the single-character arguments used. -/
def pyReplaceUnderscore (s : String) : String :=
  String.mk (s.toList.map (fun c => if c = '_' then ' ' else c))

def pyTitleAux : List Char → Bool → List Char
  | [], _ => []
  | c :: cs, prevCased =>
    if c.isAlpha then
      (if prevCased then c.toLower else c.toUpper) :: pyTitleAux cs true
    else c :: pyTitleAux cs false

/-- Python `str.title()` over ASCII: uppercase a letter after a non-letter,
lowercase a letter after a letter. -/
def pyTitle (s : String) : String := String.mk (pyTitleAux s.toList false)

def containsSub (needle : List Char) : List Char → Bool
  | [] => needle.isEmpty
  | a :: l => if needle.isPrefixOf (a :: l) then true else containsSub needle l

/-- Python `needle in hay` (substring test). -/
def strContains (hay needle : String) : Bool := containsSub needle.toList hay.toList

/-!
## The classification engine (`CodeAnalyzer` methods)
-/

/-- The body of the per-pattern loop in `detect_language`: +3 if the
pattern matches the (lowercased) file name, +1 if it matches the code
content (searched with `IGNORECASE | MULTILINE`). -/
def langPatScore (p : Pat) (file_name code_content : String) : Nat :=
  (if reSearch false p file_name then 3 else 0) +
    (if reSearch true p code_content then 1 else 0)

/-- Selection step of `detect_language`: `max(scores, key=scores.get)`,
returned when its score is positive, else "unknown" (also "unknown" on an
empty dict, which `detect_language` never produces). -/
def pyLangChoice (scores : List (String × Nat)) : String :=
  match pyMaxPair scores with
  | some q => if 0 < q.2 then q.1 else "unknown"
  | none => "unknown"

/-- Selection step of `detect_code_type`: `max` over the (positive-only)
score dict, "general_code" when it is empty. -/
def pyTypeChoice (scores : List (String × Nat)) : String :=
  match pyMaxPair scores with
  | some q => q.1
  | none => "general_code"

/-- Method `CodeAnalyzer.detect_language`. -/
def detect_language (file_name code_content : String) : String :=
  let language_scores := language_patterns.map
    (fun g => (g.1, (g.2.map (fun p => langPatScore p file_name code_content)).sum))
  pyLangChoice language_scores

/-- Method `CodeAnalyzer.detect_code_type`.  The Python loop inserts a key into
the score dict only when its score is positive; the `filter` models that. -/
def detect_code_type (code_content : String) : String :=
  let code_type_scores :=
    (code_patterns.map (fun g => (g.1, (g.2.map (fun p => reCount true p code_content)).sum))).filter
      (fun r => 0 < r.2)
  pyTypeChoice code_type_scores

/-- Method `CodeAnalyzer.detect_patterns`: category names whose pattern group has
at least one match (the `break` in the source is an any-of test), in table
order. -/
def detect_patterns (code_content : String) : List String :=
  (code_patterns.filter (fun g => g.2.any (fun p => reSearch true p code_content))).map
    (fun g => g.1)

/-- Dict read `scores[k]` for the literal keys used in `assess_complexity`. -/
def getScore (scores : List (String × Nat)) (k : String) : Nat :=
  ((scores.find? (fun r => r.1 == k)).map (fun r => r.2)).getD 0

/-- Method `CodeAnalyzer.assess_complexity`. -/
def assess_complexity (code_content : String) : String :=
  let complexity_scores := complexity_indicators.map
    (fun g => (g.1, (g.2.map (fun p => reCount true p code_content)).sum))
  let weighted_score := getScore complexity_scores "high" * 3 +
    getScore complexity_scores "medium" * 2 + getScore complexity_scores "low" * 1
  let code_lines := (splitLines code_content.toList).filter
    (fun line => !(pyStripL line).isEmpty && !startsCommentMarker (pyStripL line))
  let loc := code_lines.length
  if weighted_score > 10 ∨ loc > 100 then "high"
  else if weighted_score > 5 ∨ loc > 50 then "medium"
  else "low"

/-- The `\b<keyword>\b` pattern built in `analyze_functionality`. -/
def wordPat (kw : String) : Pat := [RItem.wb] ++ lit kw ++ [RItem.wb]

/-- Selection step of `analyze_functionality`: the positive maximum is
rendered title-cased with underscores replaced, else the fallback. -/
def pyFuncChoice (scores : List (String × Nat)) : String :=
  match pyMaxPair scores with
  | some q => if 0 < q.2 then pyTitle (pyReplaceUnderscore q.1) else "General Purpose Code"
  | none => "General Purpose Code"

/-- Method `CodeAnalyzer.analyze_functionality` (the `language` parameter is
accepted and unused, as in the source). -/
def analyze_functionality (code_content file_name : String) (language : String) : String :=
  let code_lower := pyLower code_content
  let file_lower := pyLower file_name
  let functionality_scores := functionality_keywords.map
    (fun g => (g.1, (g.2.map (fun kw =>
      reCount false (wordPat kw) code_lower +
        (if strContains file_lower kw then 3 else 0))).sum))
  pyFuncChoice functionality_scores

/-- The `pattern_desc` computation in `generate_summary`: the first two
of the top three pattern names joined with ", ", plus " and <third>" when
a third exists. -/
def patternDesc (patterns : List String) : String :=
  if patterns ≠ [] then
    let top_patterns := patterns.take 3
    let d := " with " ++ String.intercalate ", " (top_patterns.take 2)
    if top_patterns.length > 2 then d ++ " and " ++ top_patterns.getD 2 "" else d
  else ""

/-- The `change_desc` computation in `generate_summary`. -/
def changeDesc (lines_added lines_deleted : Nat) : String :=
  if 0 < lines_added ∧ 0 < lines_deleted then
    "Modified code (+" ++ toString lines_added ++ "/-" ++ toString lines_deleted ++ " lines)"
  else if 0 < lines_added then "Added " ++ toString lines_added ++ " lines of code"
  else if 0 < lines_deleted then "Removed " ++ toString lines_deleted ++ " lines of code"
  else "Code structure changes"

/-- Method `CodeAnalyzer.generate_summary` (`code_type` is accepted and unused,
as in the source). -/
def generate_summary (language code_type functionality complexity : String)
    (patterns : List String) (lines_added lines_deleted : Nat) : String :=
  let pattern_desc := patternDesc patterns
  let change_desc := changeDesc lines_added lines_deleted
  let summary := change_desc ++ " in " ++ pyTitle language ++ " for " ++ pyLower functionality
  let summary := if pattern_desc ≠ "" then summary ++ pattern_desc else summary
  summary ++ ". Code complexity is " ++ complexity ++ "."

/-- Count of lines with non-whitespace content (`calculate_confidence`'s
`code_lines`; unlike `assess_complexity`, comments are not excluded). -/
def nonBlankLineCount (text : String) : Nat :=
  ((splitLines text.toList).filter (fun line => !(pyStripL line).isEmpty)).length

/-- Method `CodeAnalyzer.calculate_confidence`.  The Python floats 0.1/0.2/0.3
are modelled as exact rationals; on every reachable combination of the
five increments the IEEE-double sums the source computes round to exactly
these rational values, so the modelling is value-faithful here. -/
def calculate_confidence (language code_type : String) (patterns : List String)
    (code_content : String) : ℚ :=
  let confidence : ℚ := 0
  let confidence := if language ≠ "unknown" then confidence + 0.3 else confidence
  let confidence := if code_type ≠ "general_code" then confidence + 0.2 else confidence
  let confidence :=
    if patterns ≠ [] then confidence + min 0.3 ((patterns.length : ℚ) * 0.1) else confidence
  let code_lines := nonBlankLineCount code_content
  let confidence := if code_lines > 5 then confidence + 0.1 else confidence
  let confidence := if code_lines > 20 then confidence + 0.1 else confidence
  min 1 confidence

/-- The flat record returned by `analyze_code_diff`. -/
structure AnalysisResult where
  language : String
  codeType : String
  functionality : String
  complexity : String
  patterns : List String
  confidence : ℚ
  summary : String
deriving DecidableEq

/-- Method `CodeAnalyzer.analyze_code_diff` (`full_diff` is accepted and unused,
as in the source). -/
def analyze_code_diff (file_name added_code deleted_code full_diff : String)
    (lines_added lines_deleted : Nat) : AnalysisResult :=
  let combined_code := added_code ++ "\n" ++ deleted_code
  let language := detect_language file_name combined_code
  let code_type := detect_code_type combined_code
  let patterns := detect_patterns combined_code
  let complexity := assess_complexity combined_code
  let functionality := analyze_functionality combined_code file_name language
  let confidence := calculate_confidence language code_type patterns combined_code
  let summary := generate_summary language code_type functionality complexity patterns
    lines_added lines_deleted
  ⟨language, code_type, functionality, complexity, patterns, confidence, summary⟩

/-!
## The transport boundary (`/analyze-code` and `/analyze-batch` handlers)

Request fields already extracted from JSON with their source defaults;
Python string truthiness (`not s` ⟺ `s == ""`) becomes emptiness tests.
A raised exception is modelled as `Except.error`.
-/

structure CodeRequest where
  fileName : String
  addedCode : String
  deletedCode : String
  fullDiff : String
  linesAdded : Nat
  linesDeleted : Nat
deriving DecidableEq

/-- The `/analyze-code` handler's validation and call into the engine. -/
def analyze_code (req : CodeRequest) : Except String AnalysisResult :=
  if req.fileName = "" then Except.error "fileName is required"
  else if req.addedCode = "" ∧ req.deletedCode = "" ∧ req.fullDiff = "" then
    Except.error "At least one of addedCode, deletedCode, or fullDiff is required"
  else Except.ok (analyze_code_diff req.fileName req.addedCode req.deletedCode
    req.fullDiff req.linesAdded req.linesDeleted)

/-- One element of the `/analyze-batch` response: either the analysis
record with the `fileName` attached, or `{fileName, error}`. -/
inductive BatchEntry where
  | ok (fileName : String) (result : AnalysisResult)
  | err (fileName : String) (message : String)
deriving DecidableEq

/-- The `/analyze-batch` loop, abstracted over the per-item analysis call
(the source wraps `analyzer.analyze_code_diff` in `try/except`, catching a
possible exception per item; `analyze` returning `Except.error` models
that exception). -/
def analyze_batch_with (analyze : CodeRequest → Except String AnalysisResult)
    (files : List CodeRequest) : List BatchEntry :=
  files.map (fun fd =>
    match analyze fd with
    | Except.ok r => BatchEntry.ok fd.fileName r
    | Except.error e => BatchEntry.err fd.fileName e)

/-- The `/analyze-batch` handler with the actual (total) engine: note it
performs no per-item validation before calling the engine. -/
def analyze_batch (files : List CodeRequest) : List BatchEntry :=
  analyze_batch_with
    (fun fd => Except.ok (analyze_code_diff fd.fileName fd.addedCode fd.deletedCode
      fd.fullDiff fd.linesAdded fd.linesDeleted))
    files

/-!
## Spec-side formulations (from the specification's words)

Used by the refinement theorems for the detectors; compare each with the
source-side definition above.
-/

/-- Spec 4.2: "+3 for each pattern in that category's group that matches
the file name, +1 for each pattern that matches anywhere in the combined
text" (presence, not count). -/
def languageScoreSpec (pats : List Pat) (fn text : String) : Nat :=
  3 * (pats.filter (fun p => reSearch false p fn)).length +
    (pats.filter (fun p => reSearch true p text)).length

/-- Spec 4.2: the first maximal category in table order; "unknown"
exactly when the maximum score is 0. -/
def detectLanguageSpec (fn text : String) : String :=
  let scores := language_patterns.map (fun g => (g.1, languageScoreSpec g.2 fn text))
  if maxVal scores = 0 then "unknown"
  else ((scores.find? (fun r => r.2 == maxVal scores)).map (fun r => r.1)).getD "unknown"

/-- Spec 4.3: "score = sum over its patterns of the count of
non-overlapping matches found anywhere in the text". -/
def typeScoreSpec (pats : List Pat) (text : String) : Nat :=
  (pats.map (fun p => reCount true p text)).sum

/-- Spec 4.3: first maximal category in table order; "general_code"
exactly when the total is 0. -/
def detectCodeTypeSpec (text : String) : String :=
  let scores := code_patterns.map (fun g => (g.1, typeScoreSpec g.2 text))
  if maxVal scores = 0 then "general_code"
  else ((scores.find? (fun r => r.2 == maxVal scores)).map (fun r => r.1)).getD
    "general_code"

/-- Spec 4.5: a tier's total of regex occurrence matches over the tier's
pattern group. -/
def tierOccurrences (tier : String) (text : String) : Nat :=
  ((complexity_indicators.find? (fun g => g.1 == tier)).map
    (fun g => (g.2.map (fun p => reCount true p text)).sum)).getD 0

/-- Spec 4.5 / claim C4: the weighted score
`high_count*3 + medium_count*2 + low_count*1`. -/
def weightedScoreSpec (text : String) : Nat :=
  tierOccurrences "high" text * 3 + tierOccurrences "medium" text * 2 +
    tierOccurrences "low" text * 1

/-- Spec 4.5 / claim C4: code lines are the lines whose trimmed form is
non-empty and does not start with '#', '//', '/*' or '*'. -/
def codeLinesSpec (text : String) : Nat :=
  ((splitLines text.toList).filter
    (fun line => !(pyStripL line).isEmpty && !startsCommentMarker (pyStripL line))).length

/-- A body matching four code-pattern categories (authentication via
"login", performance via "cache", configuration via "config", test_code
via "assert") and holding 22 non-blank lines; used for the capped
confidence instance of claim C5. -/
def richBody : String :=
  "login\ncache\nconfig\nassert\na\na\na\na\na\na\na\na\na\na\na\na\na\na\na\na\na\na"

/-!
## Properties of `pyMaxPair`

`max(d, key=d.get)` returns the first entry (in insertion order) whose
value equals the maximum value of the dict.
-/

theorem maxVal_nil : maxVal [] = 0 := rfl

theorem maxVal_cons (p : String × Nat) (l : List (String × Nat)) :
    maxVal (p :: l) = max p.2 (maxVal l) := rfl

theorem foldl_pyMax_find (l : List (String × Nat)) : ∀ p : String × Nat,
    (p :: l).find? (fun r => r.2 == maxVal (p :: l)) =
      some (l.foldl (fun best r => if r.2 > best.2 then r else best) p) := by
  induction l with
  | nil =>
    intro p
    simp [List.find?, maxVal_cons, maxVal_nil, Nat.max_zero]
  | cons a l ih =>
    intro p
    rw [List.foldl_cons]
    by_cases h : a.2 > p.2
    · rw [if_pos h]
      have hM : maxVal (p :: a :: l) = maxVal (a :: l) := by
        simp only [maxVal_cons]
        exact max_eq_right (le_max_of_le_left h.le)
      have hpneg : (p.2 == maxVal (a :: l)) = false := by
        simp only [beq_eq_false_iff_ne, ne_eq]
        exact Nat.ne_of_lt (lt_of_lt_of_le h (by rw [maxVal_cons]; exact le_max_left _ _))
      rw [hM]
      have hthis := ih a
      simp only [List.find?, hpneg] at hthis ⊢
      exact hthis
    · rw [if_neg h]
      have hale : a.2 ≤ p.2 := Nat.not_lt.mp h
      have hM : maxVal (p :: a :: l) = maxVal (p :: l) := by
        simp only [maxVal_cons]
        rw [← max_assoc, max_eq_left hale]
      rw [hM]
      have hple : p.2 ≤ maxVal (p :: l) := by rw [maxVal_cons]; exact le_max_left _ _
      by_cases hp : p.2 = maxVal (p :: l)
      · have hpb : (p.2 == maxVal (p :: l)) = true := by simpa [beq_iff_eq] using hp
        have hthis := ih p
        simp only [List.find?, hpb] at hthis ⊢
        exact hthis
      · have hpb : (p.2 == maxVal (p :: l)) = false := by
          simpa [beq_eq_false_iff_ne, ne_eq] using hp
        have hab : (a.2 == maxVal (p :: l)) = false := by
          simp only [beq_eq_false_iff_ne, ne_eq]
          exact Nat.ne_of_lt (lt_of_le_of_lt hale (lt_of_le_of_ne hple hp))
        have hthis := ih p
        simp only [List.find?, hpb, hab] at hthis ⊢
        exact hthis

theorem pyMaxPair_eq_find (l : List (String × Nat)) :
    pyMaxPair l = l.find? (fun r => r.2 == maxVal l) := by
  match l with
  | [] => rfl
  | p :: rest =>
    simp only [pyMaxPair]
    exact (foldl_pyMax_find rest p).symm

theorem pyMaxPair_mem {l : List (String × Nat)} {q : String × Nat}
    (h : pyMaxPair l = some q) : q ∈ l := by
  rw [pyMaxPair_eq_find] at h
  exact List.mem_of_find?_eq_some h

theorem pyMaxPair_val {l : List (String × Nat)} {q : String × Nat}
    (h : pyMaxPair l = some q) : q.2 = maxVal l := by
  rw [pyMaxPair_eq_find] at h
  have := List.find?_some h
  simpa [beq_iff_eq] using this

theorem maxVal_attained {l : List (String × Nat)} (h : maxVal l ≠ 0) :
    ∃ q ∈ l, q.2 = maxVal l := by
  match l with
  | [] => exact absurd rfl h
  | p :: rest =>
    obtain ⟨q, hq⟩ : ∃ q, pyMaxPair (p :: rest) = some q := ⟨_, rfl⟩
    exact ⟨q, pyMaxPair_mem hq, pyMaxPair_val hq⟩

theorem find?_filter_of_imp {α : Type} (P Q : α → Bool)
    (h : ∀ a, P a = true → Q a = true) :
    ∀ l : List α, (l.filter Q).find? P = l.find? P := by
  intro l
  induction l with
  | nil => rfl
  | cons a l ih =>
    by_cases hq : Q a
    · rw [List.filter_cons_of_pos hq]
      by_cases hp : P a
      · rw [List.find?_cons_of_pos _ hp, List.find?_cons_of_pos _ hp]
      · rw [List.find?_cons_of_neg _ hp, List.find?_cons_of_neg _ hp]
        exact ih
    · have hp : ¬ P a = true := fun hpa => hq (h a hpa)
      rw [List.filter_cons_of_neg (by simpa using hq), List.find?_cons_of_neg _ hp]
      exact ih

theorem maxVal_filter_pos (l : List (String × Nat)) :
    maxVal (l.filter (fun r => 0 < r.2)) = maxVal l := by
  induction l with
  | nil => rfl
  | cons p l ih =>
    by_cases h : 0 < p.2
    · rw [List.filter_cons_of_pos (by simpa using h), maxVal_cons, maxVal_cons, ih]
    · rw [List.filter_cons_of_neg (by simpa using h), maxVal_cons, ih]
      omega

theorem maxVal_zero_iff (l : List (String × Nat)) :
    maxVal l = 0 ↔ ∀ p ∈ l, p.2 = 0 := by
  induction l with
  | nil => simp [maxVal_nil]
  | cons p l ih => simp [maxVal_cons, Nat.max_eq_zero_iff, ih]

/-- Selection of `detect_language` (`max` then positivity test) equals: the
first maximal key in table order when the maximum is positive, else
"unknown". -/
theorem pyChoice_lang (scores : List (String × Nat)) :
    pyLangChoice scores =
    (if maxVal scores = 0 then "unknown"
     else ((scores.find? (fun r => r.2 == maxVal scores)).map (fun r => r.1)).getD
       "unknown") := by
  unfold pyLangChoice
  cases hl : pyMaxPair scores with
  | none =>
    cases scores with
    | nil => simp [maxVal_nil]
    | cons p rest => simp [pyMaxPair] at hl
  | some q =>
    have hv := pyMaxPair_val hl
    have hfind : scores.find? (fun r => r.2 == maxVal scores) = some q := by
      rw [← pyMaxPair_eq_find]; exact hl
    rw [hfind]
    show (if 0 < q.2 then q.1 else "unknown") = _
    by_cases h0 : maxVal scores = 0
    · rw [if_neg (by omega), if_pos h0]
    · rw [if_pos (by omega), if_neg h0]
      rfl

/-- Selection of `detect_code_type` (insert-only-positive dict then `max`)
equals: the first maximal key of the full table when the maximum is
positive, else "general_code". -/
theorem pyChoice_type (scores : List (String × Nat)) :
    pyTypeChoice (scores.filter (fun r => 0 < r.2)) =
    (if maxVal scores = 0 then "general_code"
     else ((scores.find? (fun r => r.2 == maxVal scores)).map (fun r => r.1)).getD
       "general_code") := by
  unfold pyTypeChoice
  by_cases h0 : maxVal scores = 0
  · have hnil : scores.filter (fun r => 0 < r.2) = [] := by
      rw [List.filter_eq_nil_iff]
      intro a ha
      have := (maxVal_zero_iff scores).mp h0 a ha
      simp [this]
    rw [hnil, if_pos h0]
    rfl
  · have himp : ∀ r : String × Nat,
        (r.2 == maxVal scores) = true → (decide (0 < r.2)) = true := by
      intro r hr
      simp only [beq_iff_eq] at hr
      simp only [decide_eq_true_eq]
      omega
    have hfind := find?_filter_of_imp (fun r => r.2 == maxVal scores)
      (fun r => decide (0 < r.2)) himp scores
    rw [pyMaxPair_eq_find (scores.filter (fun r => 0 < r.2)), maxVal_filter_pos, hfind]
    obtain ⟨q, hq, hqv⟩ := maxVal_attained h0
    cases hfs : scores.find? (fun r => r.2 == maxVal scores) with
    | none =>
      exfalso
      have := List.find?_eq_none.mp hfs q hq
      simp [beq_iff_eq, hqv] at this
    | some w =>
      rw [if_neg h0]
      rfl

theorem sum_langPatScore (pats : List Pat) (fn text : String) :
    (pats.map (fun p => langPatScore p fn text)).sum = languageScoreSpec pats fn text := by
  induction pats with
  | nil => rfl
  | cons p l ih =>
    rw [List.map_cons, List.sum_cons, ih]
    simp only [languageScoreSpec, List.filter_cons]
    by_cases h1 : reSearch false p fn = true <;> by_cases h2 : reSearch true p text = true <;>
      simp only [langPatScore, h1, h2, Bool.not_eq_true] at * <;>
      simp [h1, h2, List.length_cons] <;> omega

/-!
## Facet-level helper lemmas
-/

theorem calculate_confidence_nonneg (language code_type : String)
    (patterns : List String) (text : String) :
    0 ≤ calculate_confidence language code_type patterns text := by
  simp only [calculate_confidence]
  refine le_min (by norm_num) ?_
  split_ifs <;> positivity

theorem calculate_confidence_le_one (language code_type : String)
    (patterns : List String) (text : String) :
    calculate_confidence language code_type patterns text ≤ 1 := by
  simp only [calculate_confidence]
  exact min_le_left _ _

theorem pyLangChoice_mem (scores : List (String × Nat)) :
    pyLangChoice scores = "unknown" ∨ ∃ q, q ∈ scores ∧ pyLangChoice scores = q.1 := by
  unfold pyLangChoice
  cases hl : pyMaxPair scores with
  | none => left; rfl
  | some q =>
    by_cases h : 0 < q.2
    · right
      refine ⟨q, pyMaxPair_mem hl, ?_⟩
      show (if 0 < q.2 then q.1 else "unknown") = q.1
      rw [if_pos h]
    · left
      show (if 0 < q.2 then q.1 else "unknown") = "unknown"
      rw [if_neg h]

theorem pyTypeChoice_mem (scores : List (String × Nat)) :
    pyTypeChoice scores = "general_code" ∨
      ∃ q, q ∈ scores ∧ pyTypeChoice scores = q.1 := by
  unfold pyTypeChoice
  cases hl : pyMaxPair scores with
  | none => left; rfl
  | some q => right; exact ⟨q, pyMaxPair_mem hl, rfl⟩

theorem detect_language_mem (fn text : String) :
    detect_language fn text ∈ "unknown" :: language_patterns.map (fun g => g.1) := by
  have hd : detect_language fn text = pyLangChoice (language_patterns.map
      (fun g => (g.1, (g.2.map (fun p => langPatScore p fn text)).sum))) := rfl
  rw [hd]
  rcases pyLangChoice_mem (language_patterns.map
      (fun g => (g.1, (g.2.map (fun p => langPatScore p fn text)).sum))) with
    h | ⟨q, hq, he⟩
  · rw [h]; exact List.mem_cons_self _ _
  · rw [he]
    obtain ⟨g, hg, hgq⟩ := List.mem_map.mp hq
    have hfst : q.1 = g.1 := by rw [← hgq]
    rw [hfst]
    exact List.mem_cons_of_mem _ (List.mem_map_of_mem _ hg)

theorem detect_code_type_mem (text : String) :
    detect_code_type text ∈ "general_code" :: code_patterns.map (fun g => g.1) := by
  have hd : detect_code_type text = pyTypeChoice ((code_patterns.map
      (fun g => (g.1, (g.2.map (fun p => reCount true p text)).sum))).filter
        (fun r => 0 < r.2)) := rfl
  rw [hd]
  rcases pyTypeChoice_mem ((code_patterns.map
      (fun g => (g.1, (g.2.map (fun p => reCount true p text)).sum))).filter
        (fun r => 0 < r.2)) with h | ⟨q, hq, he⟩
  · rw [h]; exact List.mem_cons_self _ _
  · rw [he]
    obtain ⟨g, hg, hgq⟩ := List.mem_map.mp (List.mem_of_mem_filter hq)
    have hfst : q.1 = g.1 := by rw [← hgq]
    rw [hfst]
    exact List.mem_cons_of_mem _ (List.mem_map_of_mem _ hg)

/-- The source's nested-if clause selection equals the four-case form the
specification describes. -/
theorem changeDesc_cases (la ld : Nat) :
    changeDesc la ld =
      (if 0 < la ∧ 0 < ld then
        "Modified code (+" ++ toString la ++ "/-" ++ toString ld ++ " lines)"
      else if 0 < la ∧ ld = 0 then "Added " ++ toString la ++ " lines of code"
      else if la = 0 ∧ 0 < ld then "Removed " ++ toString ld ++ " lines of code"
      else "Code structure changes") := by
  unfold changeDesc
  split_ifs <;> first | rfl | omega

/-!
## The claims
-/

set_option maxRecDepth 40000
set_option maxHeartbeats 2000000

/-- C1: language detection scores each category 3 per pattern matching
the file name plus 1 per pattern matching anywhere in the combined text
(presence, not occurrence count), picks the category with the highest
aggregate score, breaks ties by the first maximal category in rule-table
order, and returns "unknown" exactly when the maximum score is 0
(`detectLanguageSpec` states exactly that selection rule). -/
theorem C1_language_detection_matches_spec (fn text : String) :
    detect_language fn text = detectLanguageSpec fn text := by
  simp only [detect_language, detectLanguageSpec, sum_langPatScore]
  exact pyChoice_lang _

/-- C2 counterexample: the claim says `fileName="data.xyz"`,
`addedCode="lorem ipsum"`, `deletedCode=""` yields language "unknown";
on the code it does not (the css pattern `\.\w+` matches ".xyz"). -/
theorem C2_counterexample :
    ¬ (analyze_code_diff "data.xyz" "lorem ipsum" "" "" 0 0).language = "unknown" := by
  decide

/-- C2 amended: for `fileName="data.xyz"`, `addedCode="lorem ipsum"`,
`deletedCode=""` the analysis returns language "css" (the css pattern
`\.\w+` matches the ".xyz" extension of the file name); with a file name
free of language signatures as well, e.g. `fileName="data"`, the same body
yields the fallback "unknown". -/
theorem C2_amended :
    (analyze_code_diff "data.xyz" "lorem ipsum" "" "" 0 0).language = "css" ∧
      (analyze_code_diff "data" "lorem ipsum" "" "" 0 0).language = "unknown" := by
  constructor <;> decide

/-- C3: code-type detection scores each category by the sum over its
patterns of non-overlapping match counts, returns the first maximal
category in rule-table order, with total 0 yielding "general_code"
(`detectCodeTypeSpec` states exactly that rule); and a body with three
`SELECT ... FROM` occurrences and one `@app.route` occurrence yields
codeType "database_query". -/
theorem C3_code_type_detection :
    (∀ text, detect_code_type text = detectCodeTypeSpec text) ∧
      (analyze_code_diff "queries.sql"
        "SELECT a FROM t\nSELECT b FROM u\nSELECT c FROM v\n@app.route"
        "" "" 0 0).codeType = "database_query" := by
  constructor
  · intro text
    simp only [detect_code_type, detectCodeTypeSpec, typeScoreSpec]
    exact pyChoice_type _
  · decide

/-- C4: the complexity tier is decided, in order, by
`weightedScoreSpec > 10 ∨ codeLinesSpec > 100` → "high", else
`weightedScoreSpec > 5 ∨ codeLinesSpec > 50` → "medium", else "low",
where `weightedScoreSpec` is `high*3 + medium*2 + low*1` over tier
occurrence counts and `codeLinesSpec` counts lines whose trimmed form is
non-empty and does not start with '#', '//', '/*' or '*'. -/
theorem C4_complexity_assessment (text : String) :
    assess_complexity text =
      if weightedScoreSpec text > 10 ∨ codeLinesSpec text > 100 then "high"
      else if weightedScoreSpec text > 5 ∨ codeLinesSpec text > 50 then "medium"
      else "low" := rfl

/-- C5: every analysis result has confidence in [0, 1], a language that
is a key of the language rule table or "unknown", and a codeType that is
a key of the code-type rule table or "general_code"; moreover
`addedCode=" "` (with a signature-free file name) yields confidence 0 and
a long richly-patterned body yields confidence 1 (capped). -/
theorem C5_result_invariants :
    (∀ (fn a d fd : String) (la ld : Nat),
      0 ≤ (analyze_code_diff fn a d fd la ld).confidence ∧
        (analyze_code_diff fn a d fd la ld).confidence ≤ 1 ∧
        (analyze_code_diff fn a d fd la ld).language ∈
          "unknown" :: language_patterns.map (fun g => g.1) ∧
        (analyze_code_diff fn a d fd la ld).codeType ∈
          "general_code" :: code_patterns.map (fun g => g.1)) ∧
      (analyze_code_diff "data" " " "" "" 0 0).confidence = 0 ∧
      (analyze_code_diff "app.py" richBody "" "" 0 0).confidence = 1 := by
  refine ⟨fun fn a d fd la ld => ⟨?_, ?_, ?_, ?_⟩, ?_, ?_⟩
  · exact calculate_confidence_nonneg _ _ _ _
  · exact calculate_confidence_le_one _ _ _ _
  · exact detect_language_mem _ _
  · exact detect_code_type_mem _
  · decide
  · show calculate_confidence (detect_language "app.py" (richBody ++ "\n" ++ ""))
      (detect_code_type (richBody ++ "\n" ++ "")) (detect_patterns (richBody ++ "\n" ++ ""))
      (richBody ++ "\n" ++ "") = 1
    rw [show detect_language "app.py" (richBody ++ "\n" ++ "") = "python" from by decide,
      show detect_code_type (richBody ++ "\n" ++ "") = "test_code" from by decide,
      show detect_patterns (richBody ++ "\n" ++ "") =
        ["test_code", "configuration", "authentication", "performance"] from by decide]
    have h1 : (("python" : String) = "unknown") = False := eq_false (by decide)
    have h2 : (("test_code" : String) = "general_code") = False := eq_false (by decide)
    have h3 : ((["test_code", "configuration", "authentication", "performance"] :
        List String) = []) = False := eq_false (by decide)
    simp only [calculate_confidence,
      show nonBlankLineCount (richBody ++ "\n" ++ "") = 22 from by decide]
    norm_num [min_def, h1, h2, h3]

/-- C6: the change-size clause of the summary is the modified-code form
(plus-A, minus-D lines) when both counts are positive, "Added N lines of
code" when only lines-added is positive, "Removed N lines of code" when
only lines-deleted is positive, and "Code structure changes" when both
are zero; and for linesAdded=10, linesDeleted=0 with a low-complexity
Python body classified as testing and no patterns, the summary is exactly
"Added 10 lines of code in Python for testing. Code complexity is low.". -/
theorem C6_summary_rendering :
    (∀ (language code_type functionality complexity : String) (patterns : List String)
        (la ld : Nat), ∃ rest : String,
      generate_summary language code_type functionality complexity patterns la ld =
        (if 0 < la ∧ 0 < ld then
          "Modified code (+" ++ toString la ++ "/-" ++ toString ld ++ " lines)"
        else if 0 < la ∧ ld = 0 then "Added " ++ toString la ++ " lines of code"
        else if la = 0 ∧ 0 < ld then "Removed " ++ toString ld ++ " lines of code"
        else "Code structure changes") ++ rest) ∧
      (analyze_code_diff "test.py" "x = 1\ny = 2\n" "" "" 10 0).summary =
        "Added 10 lines of code in Python for testing. Code complexity is low." := by
  constructor
  · intro language code_type functionality complexity patterns la ld
    simp only [generate_summary, ← changeDesc_cases]
    by_cases hc : patternDesc patterns ≠ ""
    · rw [if_pos hc]
      exact ⟨" in " ++ pyTitle language ++ " for " ++ pyLower functionality ++
          patternDesc patterns ++ (". Code complexity is " ++ complexity ++ "."),
        by simp [String.append_assoc]⟩
    · rw [if_neg hc]
      exact ⟨" in " ++ pyTitle language ++ " for " ++ pyLower functionality ++
          (". Code complexity is " ++ complexity ++ "."),
        by simp [String.append_assoc]⟩
  · decide

/-- C7 counterexample: the claim says a request with more than one of
addedCode/deletedCode/fullDiff non-empty is rejected; the handler accepts
it (it only rejects when all three are empty). -/
theorem C7_counterexample :
    (analyze_code ⟨"a", "x", "y", "", 0, 0⟩).isOk = true := rfl

/-- C7 amended: a single-analysis request is valid at the boundary iff
its fileName is non-empty and at least one of addedCode, deletedCode,
fullDiff is non-empty; only the all-empty case (or an empty fileName) is
rejected with a client error. -/
theorem C7_amended (req : CodeRequest) :
    (analyze_code req).isOk = true ↔
      (req.fileName ≠ "" ∧
        (req.addedCode ≠ "" ∨ req.deletedCode ≠ "" ∨ req.fullDiff ≠ "")) := by
  unfold analyze_code
  split_ifs with h1 h2
  · simp [Except.isOk, Except.toBool, h1]
  · simp [Except.isOk, Except.toBool, h2.1, h2.2.1, h2.2.2]
  · simp only [Except.isOk, Except.toBool, true_iff]
    refine ⟨h1, ?_⟩
    by_contra hno
    push_neg at hno
    exact h2 hno

/-- C8: `fullDiff` influences no output field — two analyses differing
only in `fullDiff` return identical results (the engine never reads it). -/
theorem C8_fullDiff_noninterference (fn a d fd1 fd2 : String) (la ld : Nat) :
    analyze_code_diff fn a d fd1 la ld = analyze_code_diff fn a d fd2 la ld := rfl

/-- C9: the batch response has exactly one entry per input file, in input
order; an item whose analysis raises (modelled by the `Except`-valued
analysis function) yields an entry with its fileName and the error, while
every other item yields its normal result — shown generally and on a
3-file batch whose second item faults. -/
theorem C9_batch_isolation :
    (∀ (f : CodeRequest → Except String AnalysisResult) (files : List CodeRequest),
      (analyze_batch_with f files).length = files.length ∧
        ∀ i : Nat, (analyze_batch_with f files)[i]? =
          (files[i]?).map (fun fd =>
            match f fd with
            | Except.ok r => BatchEntry.ok fd.fileName r
            | Except.error e => BatchEntry.err fd.fileName e)) ∧
      (let f0 : CodeRequest → Except String AnalysisResult := fun fd =>
        if fd.fileName = "b" then Except.error "boom"
        else Except.ok (analyze_code_diff fd.fileName fd.addedCode fd.deletedCode
          fd.fullDiff fd.linesAdded fd.linesDeleted)
      let files0 : List CodeRequest :=
        [⟨"a", "x", "", "", 0, 0⟩, ⟨"b", "x", "", "", 0, 0⟩, ⟨"c", "x", "", "", 0, 0⟩]
      (analyze_batch_with f0 files0).length = 3 ∧
        (analyze_batch_with f0 files0)[1]? = some (BatchEntry.err "b" "boom") ∧
        (∃ r, (analyze_batch_with f0 files0)[0]? = some (BatchEntry.ok "a" r)) ∧
        (∃ r, (analyze_batch_with f0 files0)[2]? = some (BatchEntry.ok "c" r))) := by
  constructor
  · intro f files
    refine ⟨by simp [analyze_batch_with], fun i => ?_⟩
    simp [analyze_batch_with]
  · exact ⟨rfl, rfl, ⟨_, rfl⟩, ⟨_, rfl⟩⟩

/-- C10: the batch endpoint applies no per-item validation — an item with
empty fileName and all bodies empty still produces a normal result built
from the fallbacks, while the same input on the single-analysis endpoint
is rejected with a client error. -/
theorem C10_batch_skips_validation :
    analyze_code ⟨"", "", "", "", 0, 0⟩ = Except.error "fileName is required" ∧
      analyze_batch [⟨"", "", "", "", 0, 0⟩] =
        [BatchEntry.ok "" ⟨"unknown", "general_code", "General Purpose Code", "low", [], 0,
          "Code structure changes in Unknown for general purpose code. Code complexity is low."⟩] := by
  constructor
  · rfl
  · decide
